import Mathlib

/-
Verification of the auto-post-and-forwarder bot.

Shallow embedding of the Python sources:
  - utils/helpers.py   (sanitize_title, extract_video_id)
  - utils/database.py  (users/videos tables, check_daily_limit, record_download,
                        increment_downloads, join requests, save_video, get_video)
  - handlers/video.py  (handle_channel_post, handle_media_group,
                        handle_reply_method, forward_video_to_user)
  - handlers/start.py  (check_membership, check_channel, handle_start,
                        deliver_video, handle_verify_callback)

Python strings are modelled as lists of characters (`Str`); Python truthiness
of strings / optional values is modelled explicitly.  Database tables are
association lists; every SQL statement of the source becomes one explicit
update of that state.  Outbound transport calls are oracles passed as
arguments (a failing call is the `none` / `false` case, mirroring the
`except TelegramError` handlers of the source).
-/

/-- Python strings, modelled as lists of characters. -/
abbrev Str := List Char

/-- Truthiness of a Python string: non-empty. -/
def pyTruthyStr (s : Str) : Bool := !s.isEmpty

/-- Truthiness of an optional Python string: not None and non-empty. -/
def pyTruthyOptStr : Option Str → Bool
  | none => false
  | some s => !s.isEmpty

/-- Truthiness of an optional Python int (message ids): not None and non-zero. -/
def pyTruthyOptNat : Option Nat → Bool
  | none => false
  | some n => decide (n ≠ 0)

/-- Python `a or b` on optional strings: `b` when `a` is falsy. -/
def pyOr (a b : Option Str) : Option Str :=
  if pyTruthyOptStr a then a else b

/-- Characters removed by sanitize_title's regex `[*_`...]` (star, underscore,
backtick, square brackets; the backtick is written by code point). -/
def markupChars : List Char := ['*', '_', Char.ofNat 96, '[', ']']

/-- Whitespace characters stripped by Python `str.strip()`. -/
def pySpaceChars : List Char :=
  [' ', '\t', '\n', Char.ofNat 13, Char.ofNat 11, Char.ofNat 12]

/-- Python `str.strip()`: drop leading and trailing whitespace. -/
def pyStrip (s : Str) : Str :=
  ((s.dropWhile (fun c => pySpaceChars.contains c)).reverse.dropWhile
    (fun c => pySpaceChars.contains c)).reverse

/-- Placeholder title used by sanitize_title when the caption is absent. -/
def untitled : Str := "Untitled Video".toList

/-- Embedding of helpers.sanitize_title: first line, first 100 chars, markup
characters removed, stripped; falls back to "Untitled Video". -/
def sanitize_title (caption : Option Str) : Str :=
  match caption with
  | none => untitled
  | some s =>
    if s.isEmpty then untitled
    else
      let line := (s.takeWhile (fun c => c ≠ '\n')).take 100
      let cleaned := line.filter (fun c => !markupChars.contains c)
      let stripped := pyStrip cleaned
      if stripped.isEmpty then untitled else stripped

/-- Alphabet used by database.generate_video_id: ascii lowercase + digits. -/
def id_chars : List Char := "abcdefghijklmnopqrstuvwxyz0123456789".toList

/-- Embedding of database.generate_video_id; the eight secrets.choice draws
are passed in as the list `cs` (each drawn from `id_chars`, length 8). -/
def generate_video_id (cs : List Char) : Str := "vid_".toList ++ cs

/-- Embedding of helpers.extract_video_id: the start parameter itself when it
is truthy and starts with "vid_", otherwise None. -/
def extract_video_id (text : Str) : Option Str :=
  if pyTruthyStr text && "vid_".toList.isPrefixOf text then some text else none

/-- Association-list lookup (Python dict access / SQL select by key). -/
def alookup {α β : Type} [DecidableEq α] : List (α × β) → α → Option β
  | [], _ => none
  | (a, b) :: t, k => if a = k then some b else alookup t k

/-- Association-list insert-or-replace (Python dict assignment / SQL upsert). -/
def ainsert {α β : Type} [DecidableEq α] : List (α × β) → α → β → List (α × β)
  | [], k, v => [(k, v)]
  | (a, b) :: t, k, v => if a = k then (k, v) :: t else (a, b) :: ainsert t k v

/-- Association-list delete (Python `del d[k]` / SQL delete by key). -/
def aerase {α β : Type} [DecidableEq α] : List (α × β) → α → List (α × β)
  | [], _ => []
  | (a, b) :: t, k => if a = k then t else (a, b) :: aerase t k

/-- Telegram video object: file id plus optional embedded thumbnail file id. -/
structure VideoInfo where
  file_id : Str
  thumbnail : Option Str
deriving DecidableEq

/-- Fields of a replied-to Telegram message used by handle_reply_method
(message.reply_to_message): the photo sizes list, the video, the caption. -/
structure RepliedMsg where
  message_id : Nat
  photo : List Str
  video : Option VideoInfo
  caption : Option Str
deriving DecidableEq

/-- Fields of an inbound channel-post message used by handlers/video.py.
`photo` is the list of photo-size file ids (the source uses `photo[-1]`). -/
structure ChanMsg where
  message_id : Nat
  chat_id : Int
  media_group_id : Option Str
  photo : List Str
  video : Option VideoInfo
  caption : Option Str
  reply_to : Option RepliedMsg
deriving DecidableEq

/-- One entry of the in-memory `media_groups` dict of handlers/video.py. -/
structure GroupEntry where
  photo : Option Str
  video_file_id : Option Str
  video_message_id : Option Nat
  caption : Option Str
  chat_id : Int
deriving DecidableEq

/-- Media kind tag of a stored unpaired post ("video" / "photo"). -/
inductive PendingType where
  | photo
  | video
deriving DecidableEq

/-- One entry of the in-memory `pending_posts` dict of handlers/video.py. -/
structure PendingPost where
  ptype : PendingType
  file_id : Str
  message_id : Nat
  chat_id : Int
  caption : Option Str
deriving DecidableEq

/-- The completion action of the pairing engine: one save_video call followed
by one post_to_channels fan-out, with the arguments the source passes. -/
structure CompletionEvent where
  video_id : Str
  source_channel : Int
  message_id : Nat
  title : Str
  thumbnail_id : Option Str
deriving DecidableEq

/-- The empty group entry created when a group id is first seen. -/
def emptyGroup (chatId : Int) : GroupEntry :=
  { photo := none, video_file_id := none, video_message_id := none
    caption := none, chat_id := chatId }

/-- Embedding of handle_media_group: update the entry for `gid` with the
message's slots, and when both photo and video are present, complete (one
save_video + post_to_channels, reported as a CompletionEvent carrying the
freshly generated id `newId`) and delete the entry. -/
def handle_media_group (groups : List (Str × GroupEntry)) (gid : Str)
    (msg : ChanMsg) (newId : Str) :
    List (Str × GroupEntry) × List CompletionEvent :=
  let g0 := (alookup groups gid).getD (emptyGroup msg.chat_id)
  let g1 :=
    if !msg.photo.isEmpty then
      { g0 with photo := msg.photo.getLast?
                caption := if pyTruthyOptStr msg.caption then msg.caption
                           else g0.caption }
    else g0
  let g2 :=
    if msg.video.isSome then
      { g1 with video_file_id := msg.video.map VideoInfo.file_id
                video_message_id := some msg.message_id
                caption := if pyTruthyOptStr msg.caption then msg.caption
                           else g1.caption }
    else g1
  if pyTruthyOptStr g2.photo && pyTruthyOptStr g2.video_file_id then
    (aerase groups gid,
     [{ video_id := newId, source_channel := g2.chat_id
        message_id := (g2.video_message_id).getD 0
        title := sanitize_title g2.caption, thumbnail_id := g2.photo }])
  else
    (ainsert groups gid g2, [])

/-- The thumbnail / content-message-id / caption triple computed by the
branch cascade of handle_reply_method before its completion check. -/
def reply_fields (pending : List (Nat × PendingPost)) (msg : ChanMsg)
    (replied : RepliedMsg) : Option Str × Option Nat × Option Str :=
  let replied_data := alookup pending replied.message_id
  if msg.video.isSome then
    let caption := pyOr msg.caption replied.caption
    if !replied.photo.isEmpty then
      (replied.photo.getLast?, some msg.message_id, caption)
    else if (match replied_data with
             | some d => decide (d.ptype = PendingType.photo)
             | none => false) then
      (replied_data.map PendingPost.file_id, some msg.message_id,
       if pyTruthyOptStr caption then caption
       else replied_data.bind PendingPost.caption)
    else if replied.video.isSome then
      (msg.video.bind VideoInfo.thumbnail, some replied.message_id, caption)
    else if (match replied_data with
             | some d => decide (d.ptype = PendingType.video)
             | none => false) then
      (msg.video.bind VideoInfo.thumbnail,
       replied_data.map PendingPost.message_id,
       if pyTruthyOptStr caption then caption
       else replied_data.bind PendingPost.caption)
    else (none, none, caption)
  else if !msg.photo.isEmpty then
    let caption := pyOr msg.caption replied.caption
    if replied.video.isSome then
      (msg.photo.getLast?, some replied.message_id, caption)
    else if (match replied_data with
             | some d => decide (d.ptype = PendingType.video)
             | none => false) then
      (msg.photo.getLast?, replied_data.map PendingPost.message_id,
       if pyTruthyOptStr caption then caption
       else replied_data.bind PendingPost.caption)
    else (msg.photo.getLast?, none, caption)
  else (none, none, none)

/-- Embedding of handle_reply_method: resolve the thumbnail/content roles of
the reply pair; when both are truthy, complete (save_video with the replying
message's chat id + post_to_channels) and delete the replied-to pending
entry. -/
def handle_reply_method (pending : List (Nat × PendingPost)) (msg : ChanMsg)
    (replied : RepliedMsg) (newId : Str) :
    List (Nat × PendingPost) × List CompletionEvent :=
  let f := reply_fields pending msg replied
  let thumbnail_id := f.1
  let content_id := f.2.1
  let caption := f.2.2
  if pyTruthyOptStr thumbnail_id && pyTruthyOptNat content_id then
    (aerase pending replied.message_id,
     [{ video_id := newId, source_channel := msg.chat_id
        message_id := content_id.getD 0
        title := sanitize_title caption, thumbnail_id := thumbnail_id }])
  else (pending, [])

/-- The in-memory state of the pairing engine (module-level dicts
`media_groups` and `pending_posts` of handlers/video.py). -/
structure PairState where
  media_groups : List (Str × GroupEntry)
  pending_posts : List (Nat × PendingPost)
deriving DecidableEq

/-- Embedding of handle_channel_post: ignore posts from other chats when a
source channel is configured; dispatch to the media-group or reply handler;
otherwise store a lone video or photo as an unpaired pending post (no
publish). -/
def handle_channel_post (src : Option Int) (st : PairState) (msg : ChanMsg)
    (newId : Str) : PairState × List CompletionEvent :=
  if (match src with
      | some s => decide (s ≠ 0) && decide (s ≠ msg.chat_id)
      | none => false) then
    (st, [])
  else
    match msg.media_group_id with
    | some gid =>
      let r := handle_media_group st.media_groups gid msg newId
      ({ st with media_groups := r.1 }, r.2)
    | none =>
      match msg.reply_to with
      | some rep =>
        let r := handle_reply_method st.pending_posts msg rep newId
        ({ st with pending_posts := r.1 }, r.2)
      | none =>
        if msg.video.isSome then
          let rec0 : PendingPost :=
            { ptype := PendingType.video
              file_id := (msg.video.map VideoInfo.file_id).getD []
              message_id := msg.message_id, chat_id := msg.chat_id
              caption := msg.caption }
          ({ st with pending_posts :=
              ainsert st.pending_posts msg.message_id rec0 }, [])
        else if !msg.photo.isEmpty then
          let rec1 : PendingPost :=
            { ptype := PendingType.photo
              file_id := (msg.photo.getLast?).getD []
              message_id := msg.message_id, chat_id := msg.chat_id
              caption := msg.caption }
          ({ st with pending_posts :=
              ainsert st.pending_posts msg.message_id rec1 }, [])
        else (st, [])

/-- One row of the `users` table (the columns the handlers read/write).
Dates are abstract day numbers; `last_download_date` is NULL at creation. -/
structure UserRec where
  downloads_today : Nat
  last_download_date : Option Nat
  total_downloads : Nat
deriving DecidableEq

/-- One row of the `videos` table. -/
structure VideoRec where
  source_channel : Int
  message_id : Nat
  title : Str
  thumbnail_id : Option Str
  downloads : Nat
deriving DecidableEq

/-- The database state touched by the delivery pipeline: the `videos` and
`users` tables keyed by primary key. -/
structure Db where
  videos : List (Str × VideoRec)
  users : List (Int × UserRec)
deriving DecidableEq

/-- Row inserted by get_user's lazy INSERT (table defaults). -/
def defaultUser : UserRec :=
  { downloads_today := 0, last_download_date := none, total_downloads := 0 }

/-- Embedding of database.get_user: SELECT the row, lazily INSERTing the
default row when absent; returns the (possibly extended) state and the row. -/
def get_user (db : Db) (uid : Int) : Db × UserRec :=
  match alookup db.users uid with
  | some u => (db, u)
  | none => ({ db with users := ainsert db.users uid defaultUser }, defaultUser)

/-- Embedding of database.check_daily_limit: load (or create) the row; when
the stored last-download date is not `today`, UPDATE the row to zero the
daily counter and stamp today; then return (remaining > 0, remaining) with
remaining = limit - counter (an Int, as in Python). -/
def check_daily_limit (db : Db) (uid : Int) (limit : Int) (today : Nat) :
    Db × Bool × Int :=
  let g := get_user db uid
  let db1 := g.1
  let user := g.2
  let step :=
    if user.last_download_date ≠ some today then
      let row : UserRec :=
        { user with downloads_today := 0, last_download_date := some today }
      ({ db1 with users := ainsert db1.users uid row },
       { user with downloads_today := 0 })
    else (db1, user)
  let remaining : Int := limit - step.2.downloads_today
  (step.1, decide (remaining > 0), remaining)

/-- Embedding of database.record_download: one UPDATE statement incrementing
the daily counter and lifetime total and stamping today's date (a no-op when
the row does not exist, as for SQL UPDATE). -/
def record_download (db : Db) (uid : Int) (today : Nat) : Db :=
  match alookup db.users uid with
  | none => db
  | some u =>
    let row : UserRec :=
      { u with downloads_today := u.downloads_today + 1
               total_downloads := u.total_downloads + 1
               last_download_date := some today }
    { db with users := ainsert db.users uid row }

/-- Embedding of database.increment_downloads: one UPDATE statement adding 1
to the video's download counter (no-op on a missing row). -/
def increment_downloads (db : Db) (vid : Str) : Db :=
  match alookup db.videos vid with
  | none => db
  | some v =>
    let row : VideoRec := { v with downloads := v.downloads + 1 }
    { db with videos := ainsert db.videos vid row }

/-- Embedding of database.save_video: INSERT a fresh row under the freshly
generated id `newId` with a zero download counter. -/
def save_video (db : Db) (newId : Str) (source_channel : Int)
    (message_id : Nat) (title : Str) (thumbnail_id : Option Str) : Db :=
  let row : VideoRec :=
    { source_channel := source_channel, message_id := message_id
      title := title, thumbnail_id := thumbnail_id, downloads := 0 }
  { db with videos := ainsert db.videos newId row }

/-- Embedding of database.get_video: SELECT by id. -/
def get_video (db : Db) (vid : Str) : Option VideoRec := alookup db.videos vid

/-- Embedding of video.forward_video_to_user: resolve the id (False when
absent); attempt the transport forward (outcome given by the oracle `fwdOk`);
only on success increment the video's download counter and return True. -/
def forward_video_to_user (db : Db) (fwdOk : Bool) (vid : Str) : Db × Bool :=
  match get_video db vid with
  | none => (db, false)
  | some _ => if fwdOk then (increment_downloads db vid, true) else (db, false)

/-- User-visible replies sent by the start/delivery handlers. -/
inductive Msg where
  | limitReached
  | videoSent (remaining : Option Int)
  | videoNotFound
  | welcomePrompt
  | successMenu
  | notJoinedPrompt
deriving DecidableEq

/-- Embedding of start.deliver_video: non-premium users pass through
check_daily_limit first (Denied on failure, quota not consumed); then the
forward is attempted, and only on transport success is record_download
called; on failure the user sees the not-found message. -/
def deliver_video (db : Db) (uid : Int) (vid : Str) (isPremium : Bool)
    (limit : Int) (today : Nat) (fwdOk : Bool) : Db × List Msg :=
  let quota :=
    if isPremium then (db, true)
    else
      let c := check_daily_limit db uid limit today
      (c.1, c.2.1)
  let db1 := quota.1
  if !quota.2 then (db1, [Msg.limitReached])
  else
    let f := forward_video_to_user db1 fwdOk vid
    let db2 := f.1
    if f.2 then
      let db3 := record_download db2 uid today
      if isPremium then (db3, [Msg.videoSent none])
      else
        let c2 := check_daily_limit db3 uid limit today
        (c2.1, [Msg.videoSent (some c2.2.2)])
    else (db2, [Msg.videoNotFound])

/-- Embedding of start.handle_start for a private /start message: extract the
deep-link id from the argument; when required channels exist and the gate is
unsatisfied, store the pending video id (overwriting) and show the join
prompt; otherwise deliver the requested video or show the menu. -/
def handle_start (pending : Option Str) (db : Db) (requiredNonempty : Bool)
    (allOk : Bool) (arg : Option Str) (uid : Int) (isPremium : Bool)
    (limit : Int) (today : Nat) (fwdOk : Bool) :
    Option Str × Db × List Msg :=
  let video_id := (arg.map extract_video_id).getD none
  if requiredNonempty && !allOk then
    let pending1 := if video_id.isSome then video_id else pending
    (pending1, db, [Msg.welcomePrompt])
  else
    match video_id with
    | some v =>
      let r := deliver_video db uid v isPremium limit today fwdOk
      (pending, r.1, r.2)
    | none => (pending, db, [Msg.successMenu])

/-- Embedding of start.handle_verify_callback: re-run the gate; when
satisfied, consume and clear the pending video id (delivering it) or show the
menu; when unsatisfied, re-prompt and keep the pending request. -/
def handle_verify_callback (pending : Option Str) (db : Db) (allOk : Bool)
    (uid : Int) (isPremium : Bool) (limit : Int) (today : Nat)
    (fwdOk : Bool) : Option Str × Db × List Msg :=
  if allOk then
    if pyTruthyOptStr pending then
      let r := deliver_video db uid (pending.getD []) isPremium limit today fwdOk
      (none, r.1, Msg.successMenu :: r.2)
    else (pending, db, [Msg.successMenu])
  else (pending, db, [Msg.notJoinedPrompt])

/-- The join_requests table: rows (user_id, channel_id as stored text). -/
abbrev JoinReqs := List (Int × Str)

/-- Embedding of database.has_join_request: SELECT 1 by (user, channel). -/
def has_join_request (jr : JoinReqs) (uid : Int) (cid : Str) : Bool :=
  jr.contains (uid, cid)

/-- Embedding of database.remove_join_request: DELETE by (user, channel). -/
def remove_join_request (jr : JoinReqs) (uid : Int) (cid : Str) : JoinReqs :=
  jr.filter (fun p => decide (p ≠ (uid, cid)))

/-- Embedding of database.add_join_request: INSERT ... ON CONFLICT DO
NOTHING. -/
def add_join_request (jr : JoinReqs) (uid : Int) (cid : Str) : JoinReqs :=
  if jr.contains (uid, cid) then jr else (uid, cid) :: jr

/-- Statuses start.check_membership treats as satisfying membership. -/
def memberStatuses : List Str :=
  ["member".toList, "administrator".toList, "creator".toList,
   "restricted".toList]

/-- Embedding of start.check_membership: the live get_chat_member call either
raises (`none`, caught and turned into False) or yields a status string that
must be in the member/administrator/creator/restricted set. -/
def check_membership (live : Option Str) : Bool :=
  match live with
  | none => false
  | some st => memberStatuses.contains st

/-- Channel type from the required-channels config (`public` by default). -/
inductive ChanType where
  | pub
  | priv
deriving DecidableEq

/-- Embedding of start.check_channel: a successful live check removes any
stale join request and satisfies; otherwise only a channel marked private
falls back to the recorded join request; a public channel fails. -/
def check_channel (jr : JoinReqs) (uid : Int) (cid : Str) (ctype : ChanType)
    (live : Option Str) : JoinReqs × Bool :=
  if check_membership live then
    (remove_join_request jr uid cid, true)
  else if ctype = ChanType.priv then
    (jr, has_join_request jr uid cid)
  else (jr, false)

/-- SQL effect on a user row of check_daily_limit's conditional UPDATE
relative to the SELECTed snapshot: the source reads the row, then issues a
separate UPDATE zeroing the counter when the snapshot's date is stale. -/
def checkThenWrite (snapshot : UserRec) (today : Nat) (u : UserRec) : UserRec :=
  if snapshot.last_download_date ≠ some today then
    { u with downloads_today := 0, last_download_date := some today }
  else u

/-- SQL effect on a user row of record_download's single UPDATE statement. -/
def userRecordStmt (today : Nat) (u : UserRec) : UserRec :=
  { u with downloads_today := u.downloads_today + 1
           total_downloads := u.total_downloads + 1
           last_download_date := some today }

/-- Serial execution check_daily_limit; record_download on one user row. -/
def serialCheckRecord (today : Nat) (u0 : UserRec) : UserRec :=
  userRecordStmt today (checkThenWrite u0 today u0)

/-- Serial execution record_download; check_daily_limit on one user row. -/
def serialRecordCheck (today : Nat) (u0 : UserRec) : UserRec :=
  checkThenWrite (userRecordStmt today u0) today (userRecordStmt today u0)

/-- The interleaving in which record_download's UPDATE commits between
check_daily_limit's SELECT and its conditional UPDATE: the reset is applied
to the already-incremented row, using the stale snapshot. -/
def interleavedCheckRecord (today : Nat) (u0 : UserRec) : UserRec :=
  checkThenWrite u0 today (userRecordStmt today u0)

/-- Database states reachable through the storage operations the handlers
perform, for a fixed premium allow-list `prem` and daily limit `limit`
(days, users, content ids and transport outcomes arbitrary). -/
inductive ReachableDb (prem : Int → Bool) (limit : Int) : Db → Prop where
  | init : ReachableDb prem limit { videos := [], users := [] }
  | saveStep (db : Db) (i : Str) (sc : Int) (mid : Nat) (t : Str)
      (th : Option Str) : ReachableDb prem limit db →
      ReachableDb prem limit (save_video db i sc mid t th)
  | getUserStep (db : Db) (uid : Int) : ReachableDb prem limit db →
      ReachableDb prem limit (get_user db uid).1
  | checkStep (db : Db) (uid : Int) (today : Nat) :
      ReachableDb prem limit db →
      ReachableDb prem limit (check_daily_limit db uid limit today).1
  | deliverStep (db : Db) (uid : Int) (vid : Str) (today : Nat)
      (fwdOk : Bool) : ReachableDb prem limit db →
      ReachableDb prem limit
        (deliver_video db uid vid (prem uid) limit today fwdOk).1

/-- Quota-ledger operations a single user's row can undergo during one
calendar day (quota checks and successful-download records). -/
inductive QuotaOp where
  | checkQ
  | recordQ
deriving DecidableEq

/-- Apply one quota operation to the database state. -/
def apply_quota_op (uid : Int) (limit : Int) (today : Nat) (db : Db) :
    QuotaOp → Db
  | QuotaOp.checkQ => (check_daily_limit db uid limit today).1
  | QuotaOp.recordQ => record_download db uid today

/-- Apply a sequence of same-day quota operations. -/
def apply_quota_ops (uid : Int) (limit : Int) (today : Nat) (db : Db)
    (ops : List QuotaOp) : Db :=
  ops.foldl (apply_quota_op uid limit today) db

/-- The row check_daily_limit leaves (and bases its result on): zeroed and
restamped on a stale date, untouched otherwise. -/
def checkedRow (u : UserRec) (today : Nat) : UserRec :=
  if u.last_download_date ≠ some today then
    { u with downloads_today := 0, last_download_date := some today }
  else u

theorem alookup_ainsert_self {α β : Type} [DecidableEq α]
    (l : List (α × β)) (k : α) (v : β) :
    alookup (ainsert l k v) k = some v := by
  induction l with
  | nil => simp [ainsert, alookup]
  | cons hd t ih =>
    obtain ⟨a, b⟩ := hd
    by_cases hak : a = k
    · simp [ainsert, hak, alookup]
    · simp [ainsert, hak, alookup, ih]

theorem alookup_ainsert_ne {α β : Type} [DecidableEq α]
    (l : List (α × β)) (k k' : α) (v : β) (h : k' ≠ k) :
    alookup (ainsert l k v) k' = alookup l k' := by
  have hk : k ≠ k' := fun he => h he.symm
  induction l with
  | nil => simp [ainsert, alookup, hk]
  | cons hd t ih =>
    obtain ⟨a, b⟩ := hd
    by_cases hak : a = k
    · subst hak
      simp [ainsert, alookup, hk]
    · simp [ainsert, hak, alookup, ih]

theorem aerase_of_alookup_none {α β : Type} [DecidableEq α]
    (l : List (α × β)) (k : α) (h : alookup l k = none) : aerase l k = l := by
  induction l with
  | nil => simp [aerase]
  | cons hd t ih =>
    obtain ⟨a, b⟩ := hd
    by_cases hak : a = k
    · simp [alookup, hak] at h
    · simp [alookup, hak] at h
      simp [aerase, hak, ih h]

theorem get_user_eq_of_mem (db : Db) (uid : Int) (u : UserRec)
    (h : alookup db.users uid = some u) : get_user db uid = (db, u) := by
  simp [get_user, h]

theorem get_user_snd (db : Db) (uid : Int) :
    (get_user db uid).2 = (alookup db.users uid).getD defaultUser := by
  unfold get_user
  cases alookup db.users uid <;> simp

theorem get_user_lookup (db : Db) (uid : Int) :
    alookup (get_user db uid).1.users uid = some (get_user db uid).2 := by
  unfold get_user
  cases h : alookup db.users uid with
  | none => simp [alookup_ainsert_self]
  | some u => simp [h]

theorem get_user_lookup_ne (db : Db) (uid k : Int) (h : k ≠ uid) :
    alookup (get_user db uid).1.users k = alookup db.users k := by
  unfold get_user
  cases hu : alookup db.users uid with
  | none => simp [alookup_ainsert_ne _ _ _ _ h]
  | some u => simp

theorem get_user_videos (db : Db) (uid : Int) :
    (get_user db uid).1.videos = db.videos := by
  unfold get_user
  cases alookup db.users uid <;> simp

theorem check_daily_limit_users_lookup (db : Db) (uid : Int) (limit : Int)
    (today : Nat) :
    alookup (check_daily_limit db uid limit today).1.users uid =
      some (checkedRow (get_user db uid).2 today) := by
  unfold check_daily_limit checkedRow
  by_cases hd : (get_user db uid).2.last_download_date = some today
  · simp [hd, get_user_lookup]
  · simp [hd, alookup_ainsert_self]

theorem check_daily_limit_users_lookup_ne (db : Db) (uid k : Int)
    (limit : Int) (today : Nat) (h : k ≠ uid) :
    alookup (check_daily_limit db uid limit today).1.users k =
      alookup db.users k := by
  unfold check_daily_limit
  by_cases hd : (get_user db uid).2.last_download_date = some today
  · simp [hd, get_user_lookup_ne _ _ _ h]
  · simp [hd, alookup_ainsert_ne _ _ _ _ h, get_user_lookup_ne _ _ _ h]

theorem check_daily_limit_remaining (db : Db) (uid : Int) (limit : Int)
    (today : Nat) :
    (check_daily_limit db uid limit today).2.2 =
      limit - (checkedRow (get_user db uid).2 today).downloads_today := by
  unfold check_daily_limit checkedRow
  by_cases hd : (get_user db uid).2.last_download_date = some today
  · simp [hd]
  · simp [hd]

theorem check_daily_limit_allowed (db : Db) (uid : Int) (limit : Int)
    (today : Nat) :
    (check_daily_limit db uid limit today).2.1 =
      decide ((check_daily_limit db uid limit today).2.2 > 0) := by
  unfold check_daily_limit
  by_cases hd : (get_user db uid).2.last_download_date = some today
  · simp [hd]
  · simp [hd]

theorem check_daily_limit_videos (db : Db) (uid : Int) (limit : Int)
    (today : Nat) :
    (check_daily_limit db uid limit today).1.videos = db.videos := by
  unfold check_daily_limit
  by_cases hd : (get_user db uid).2.last_download_date = some today
  · simp [hd, get_user_videos]
  · simp [hd, get_user_videos]

theorem check_daily_limit_same_day (db : Db) (uid : Int) (limit : Int)
    (today : Nat) (u : UserRec) (hm : alookup db.users uid = some u)
    (hd : u.last_download_date = some today) :
    (check_daily_limit db uid limit today).1 = db := by
  unfold check_daily_limit
  simp [get_user_eq_of_mem db uid u hm, hd]

theorem check_daily_limit_row_date (db : Db) (uid : Int) (limit : Int)
    (today : Nat) :
    (checkedRow (get_user db uid).2 today).last_download_date = some today := by
  unfold checkedRow
  by_cases hd : (get_user db uid).2.last_download_date = some today
  · simp [hd]
  · simp [hd]

theorem record_download_lookup (db : Db) (uid : Int) (today : Nat)
    (u : UserRec) (hm : alookup db.users uid = some u) :
    alookup (record_download db uid today).users uid =
      some (userRecordStmt today u) := by
  unfold record_download userRecordStmt
  simp [hm, alookup_ainsert_self]

theorem record_download_videos (db : Db) (uid : Int) (today : Nat) :
    (record_download db uid today).videos = db.videos := by
  unfold record_download
  cases alookup db.users uid <;> simp

theorem record_download_lookup_ne (db : Db) (uid k : Int) (today : Nat)
    (h : k ≠ uid) :
    alookup (record_download db uid today).users k = alookup db.users k := by
  unfold record_download
  cases alookup db.users uid with
  | none => simp
  | some u => simp [alookup_ainsert_ne _ _ _ _ h]

theorem increment_downloads_users (db : Db) (vid : Str) :
    (increment_downloads db vid).users = db.users := by
  unfold increment_downloads
  cases alookup db.videos vid <;> simp

theorem forward_fail_state (db : Db) (vid : Str) :
    (forward_video_to_user db false vid).1 = db ∧
      (forward_video_to_user db false vid).2 = false := by
  unfold forward_video_to_user
  cases get_video db vid <;> simp

theorem aerase_ainsert_of_none {α β : Type} [DecidableEq α]
    (l : List (α × β)) (k : α) (v : β) (h : alookup l k = none) :
    aerase (ainsert l k v) k = l := by
  induction l with
  | nil => simp [ainsert, aerase]
  | cons hd t ih =>
    obtain ⟨a, b⟩ := hd
    by_cases hak : a = k
    · simp [alookup, hak] at h
    · simp [alookup, hak] at h
      simp [ainsert, hak, aerase, ih h]

theorem has_join_request_remove (jr : JoinReqs) (uid : Int) (cid : Str) :
    has_join_request (remove_join_request jr uid cid) uid cid = false := by
  simp [has_join_request, remove_join_request, List.elem_eq_mem]

/-- C10: every generated content id is "vid_" followed by the 8 drawn
lowercase-alphanumeric characters; extract_video_id is a left inverse of
generation (it returns a generated id unchanged), and returns None on any
string not starting with "vid_", the empty string included. -/
theorem generated_ids_roundtrip (cs : List Char)
    (hlen : cs.length = 8) (hmem : ∀ c ∈ cs, c ∈ id_chars) :
    (generate_video_id cs).take 4 = "vid_".toList ∧
    ((generate_video_id cs).drop 4).length = 8 ∧
    (∀ c ∈ (generate_video_id cs).drop 4, c ∈ id_chars) ∧
    extract_video_id (generate_video_id cs) = some (generate_video_id cs) ∧
    (∀ t : Str, ¬ "vid_".toList.isPrefixOf t → extract_video_id t = none) := by
  have h4 : ("vid_".toList).length = 4 := rfl
  have hdrop : (generate_video_id cs).drop 4 = cs := by
    rw [generate_video_id, ← h4, List.drop_left]
  refine ⟨?_, ?_, ?_, ?_, ?_⟩
  · rw [generate_video_id, ← h4, List.take_left]
  · rw [hdrop, hlen]
  · rw [hdrop]
    exact hmem
  · have hpre : ("vid_".toList).isPrefixOf (generate_video_id cs) = true := by
      rw [ List.isPrefixOf_iff_prefix, generate_video_id]
      exact List.prefix_append _ _
    simp [extract_video_id, hpre, pyTruthyStr, generate_video_id]
  · intro t ht
    have hf : ("vid_".toList).isPrefixOf t = false := by
      revert ht
      cases ("vid_".toList).isPrefixOf t <;> simp
    unfold extract_video_id
    rw [hf, Bool.and_false]
    simp

/-- Witness for C10 at a concrete generated id and a concrete junk string. -/
theorem generated_ids_roundtrip_witness :
    extract_video_id (generate_video_id "abcd1234".toList) =
      some (generate_video_id "abcd1234".toList) ∧
    extract_video_id "hello".toList = none := by
  have h := generated_ids_roundtrip "abcd1234".toList (by decide) (by decide)
  exact ⟨h.2.2.2.1, h.2.2.2.2 _ (by decide)⟩

/-- C5: the membership gate satisfies a private channel through a recorded
join request when the live check fails; a public channel is satisfied exactly
when the live membership lookup returns one of
member/administrator/creator/restricted; a successful live check removes the
join-request record; and a transport error (the `none` oracle outcome) is
treated as not-satisfied instead of propagating. -/
theorem membership_gate_semantics (jr : JoinReqs) (uid : Int) (cid : Str) :
    (∀ live, check_membership live = false →
      has_join_request jr uid cid = true →
      (check_channel jr uid cid ChanType.priv live).2 = true) ∧
    (∀ live, (check_channel jr uid cid ChanType.pub live).2 = true ↔
      ∃ st, live = some st ∧ st ∈ memberStatuses) ∧
    (∀ ctype live, check_membership live = true →
      has_join_request (check_channel jr uid cid ctype live).1 uid cid
        = false) ∧
    check_membership none = false ∧
    (check_channel jr uid cid ChanType.pub none).2 = false := by
  refine ⟨?_, ?_, ?_, rfl, ?_⟩
  · intro live hlive hreq
    simp [check_channel, hlive, hreq]
  · intro live
    cases live with
    | none => simp [check_channel, check_membership]
    | some st =>
      by_cases hst : st ∈ memberStatuses
      · simp [check_channel, check_membership, List.elem_eq_mem, hst]
      · simp [check_channel, check_membership, List.elem_eq_mem, hst]
  · intro ctype live hlive
    simp [check_channel, hlive, has_join_request_remove]
  · simp [check_channel, check_membership]

/-- Witness for C5 at a concrete join-request table. -/
theorem membership_gate_semantics_witness :
    (check_channel [((7 : Int), "c1".toList)] 7 ("c1".toList)
      ChanType.priv none).2 = true ∧
    (check_channel [((7 : Int), "c1".toList)] 7 ("c1".toList)
      ChanType.pub (some ("member".toList))).2 = true := by
  have h := membership_gate_semantics [((7 : Int), "c1".toList)] 7 ("c1".toList)
  exact ⟨h.1 none (by decide) (by decide),
         (h.2.1 (some ("member".toList))).2 ⟨"member".toList, rfl, by decide⟩⟩

/-- C9: a source-channel post with no media-group id and no reply that is a
lone video or a lone photo is stored as an unpaired pending record and
publishes nothing: no completion event fires and the media-group table is
untouched. -/
theorem lone_post_stored_not_published (src : Option Int) (st : PairState)
    (msg : ChanMsg) (newId : Str)
    (hsrc : src = none ∨ src = some msg.chat_id)
    (hgid : msg.media_group_id = none)
    (hrep : msg.reply_to = none)
    (hmedia : msg.video.isSome = true ∨ (msg.video = none ∧ msg.photo ≠ [])) :
    (handle_channel_post src st msg newId).2 = [] ∧
    (handle_channel_post src st msg newId).1.media_groups = st.media_groups ∧
    (∀ v, msg.video = some v →
      alookup (handle_channel_post src st msg newId).1.pending_posts
          msg.message_id =
        some { ptype := PendingType.video, file_id := v.file_id
               message_id := msg.message_id, chat_id := msg.chat_id
               caption := msg.caption }) ∧
    (msg.video = none → msg.photo ≠ [] →
      alookup (handle_channel_post src st msg newId).1.pending_posts
          msg.message_id =
        some { ptype := PendingType.photo
               file_id := (msg.photo.getLast?).getD []
               message_id := msg.message_id, chat_id := msg.chat_id
               caption := msg.caption }) := by
  rcases hsrc with h | h <;> subst h <;> rcases hmedia with hv | ⟨hv, hp⟩
  · obtain ⟨v, hveq⟩ := Option.isSome_iff_exists.mp hv
    refine ⟨?_, ?_, ?_, ?_⟩
    · simp [handle_channel_post, hgid, hrep, hveq]
    · simp [handle_channel_post, hgid, hrep, hveq]
    · intro v' hv'
      rw [hveq] at hv'
      cases hv'
      simp [handle_channel_post, hgid, hrep, hveq, alookup_ainsert_self]
    · intro hnone
      rw [hveq] at hnone
      simp at hnone
  · have hpe : msg.photo.isEmpty = false := by
      cases hph : msg.photo with
      | nil => exact absurd hph hp
      | cons a t => simp
    refine ⟨?_, ?_, ?_, ?_⟩
    · simp [handle_channel_post, hgid, hrep, hv, hpe]
    · simp [handle_channel_post, hgid, hrep, hv, hpe]
    · intro v' hv'
      rw [hv] at hv'
      simp at hv'
    · intro _ _
      simp [handle_channel_post, hgid, hrep, hv, hpe, alookup_ainsert_self]
  · obtain ⟨v, hveq⟩ := Option.isSome_iff_exists.mp hv
    refine ⟨?_, ?_, ?_, ?_⟩
    · simp [handle_channel_post, hgid, hrep, hveq]
    · simp [handle_channel_post, hgid, hrep, hveq]
    · intro v' hv'
      rw [hveq] at hv'
      cases hv'
      simp [handle_channel_post, hgid, hrep, hveq, alookup_ainsert_self]
    · intro hnone
      rw [hveq] at hnone
      simp at hnone
  · have hpe : msg.photo.isEmpty = false := by
      cases hph : msg.photo with
      | nil => exact absurd hph hp
      | cons a t => simp
    refine ⟨?_, ?_, ?_, ?_⟩
    · simp [handle_channel_post, hgid, hrep, hv, hpe]
    · simp [handle_channel_post, hgid, hrep, hv, hpe]
    · intro v' hv'
      rw [hv] at hv'
      simp at hv'
    · intro _ _
      simp [handle_channel_post, hgid, hrep, hv, hpe, alookup_ainsert_self]

/-- Witness for C9: a lone video post stored, nothing published. -/
theorem lone_post_stored_not_published_witness :
    (handle_channel_post (some 5) { media_groups := [], pending_posts := [] }
        { message_id := 3, chat_id := 5, media_group_id := none, photo := []
          video := some { file_id := "fv".toList, thumbnail := none }
          caption := none, reply_to := none } ("vid_x".toList)).2 = [] ∧
    alookup (handle_channel_post (some 5)
        { media_groups := [], pending_posts := [] }
        { message_id := 3, chat_id := 5, media_group_id := none, photo := []
          video := some { file_id := "fv".toList, thumbnail := none }
          caption := none, reply_to := none } ("vid_x".toList)).1.pending_posts
        3 =
      some { ptype := PendingType.video, file_id := "fv".toList
             message_id := 3, chat_id := 5, caption := none } := by
  have h := lone_post_stored_not_published (some 5)
    { media_groups := [], pending_posts := [] }
    { message_id := 3, chat_id := 5, media_group_id := none, photo := []
      video := some { file_id := "fv".toList, thumbnail := none }
      caption := none, reply_to := none } ("vid_x".toList)
    (Or.inr rfl) rfl rfl (Or.inl rfl)
  exact ⟨h.1, h.2.2.1 _ rfl⟩

/-- C4: when a video message C replies to an earlier video message A, the
completed ContentItem's source message is A (the replied-to message, not C),
its thumbnail is C's embedded video thumbnail, and its title derives from
C's caption when that is non-empty, otherwise from A's caption. -/
theorem video_reply_to_video_roles (pending : List (Nat × PendingPost))
    (msg : ChanMsg) (replied : RepliedMsg) (newId : Str) (v : VideoInfo)
    (t : Str)
    (hv : msg.video = some v)
    (hrp : replied.photo = [])
    (hrv : replied.video.isSome = true)
    (hpd : ∀ d, alookup pending replied.message_id = some d →
      d.ptype = PendingType.video)
    (ht : v.thumbnail = some t) (htne : t ≠ [])
    (hmid : replied.message_id ≠ 0) :
    handle_reply_method pending msg replied newId =
      (aerase pending replied.message_id,
       [{ video_id := newId, source_channel := msg.chat_id
          message_id := replied.message_id
          title := sanitize_title (pyOr msg.caption replied.caption)
          thumbnail_id := some t }]) ∧
    (pyTruthyOptStr msg.caption = true →
      pyOr msg.caption replied.caption = msg.caption) ∧
    (pyTruthyOptStr msg.caption = false →
      pyOr msg.caption replied.caption = replied.caption) := by
  have hfields : reply_fields pending msg replied =
      (some t, some replied.message_id, pyOr msg.caption replied.caption) := by
    unfold reply_fields
    cases hd : alookup pending replied.message_id with
    | none => simp [hv, hrp, hrv, ht]
    | some d =>
      have hdv := hpd d hd
      simp [hv, hrp, hrv, ht, hdv]
  have hte : t.isEmpty = false := by
    cases t with
    | nil => exact absurd rfl htne
    | cons a s => simp
  refine ⟨?_, ?_, ?_⟩
  · simp [handle_reply_method, hfields, pyTruthyOptStr, pyTruthyOptNat, hte,
      hmid]
  · intro h
    simp [pyOr, h]
  · intro h
    simp [pyOr, h]

/-- Witness for C4: video A (caption "Movie") replied to by video C (embedded
thumbnail, no caption); the item keeps A's message id and "Movie". -/
theorem video_reply_to_video_roles_witness :
    handle_reply_method []
      { message_id := 11, chat_id := 5, media_group_id := none, photo := []
        video := some { file_id := "fc".toList, thumbnail := some ("th".toList) }
        caption := none
        reply_to := some { message_id := 10, photo := []
                           video := some { file_id := "fa".toList
                                           thumbnail := none }
                           caption := some ("Movie".toList) } }
      { message_id := 10, photo := []
        video := some { file_id := "fa".toList, thumbnail := none }
        caption := some ("Movie".toList) } ("vid_w".toList) =
      ([], [{ video_id := "vid_w".toList, source_channel := 5
              message_id := 10, title := "Movie".toList
              thumbnail_id := some ("th".toList) }]) := by
  have h := (video_reply_to_video_roles []
    { message_id := 11, chat_id := 5, media_group_id := none, photo := []
      video := some { file_id := "fc".toList, thumbnail := some ("th".toList) }
      caption := none
      reply_to := some { message_id := 10, photo := []
                         video := some { file_id := "fa".toList
                                         thumbnail := none }
                         caption := some ("Movie".toList) } }
    { message_id := 10, photo := []
      video := some { file_id := "fa".toList, thumbnail := none }
      caption := some ("Movie".toList) } ("vid_w".toList)
    { file_id := "fc".toList, thumbnail := some ("th".toList) } ("th".toList)
    rfl rfl rfl (fun d hd => by simp [alookup] at hd) rfl (by decide)
    (by decide)).1
  rw [h]
  decide

/-- C1 counterexample: a media-group pairing (photo msg 1, video msg 2) fires
its completion and clears the entry, but a third photo post carrying the same
group id afterwards re-creates a correlation entry for that key — refuting
the claim that a later message with that group id leaves no surviving
correlation state. -/
theorem media_group_third_message_leaves_state :
    (let gid : Str := "g1".toList
     let m1 : ChanMsg :=
       { message_id := 1, chat_id := 5, media_group_id := some gid
         photo := ["p1".toList], video := none, caption := none
         reply_to := none }
     let m2 : ChanMsg :=
       { message_id := 2, chat_id := 5, media_group_id := some gid
         photo := [], video := some { file_id := "v1".toList, thumbnail := none }
         caption := none, reply_to := none }
     let m3 : ChanMsg :=
       { message_id := 3, chat_id := 5, media_group_id := some gid
         photo := ["p3".toList], video := none, caption := none
         reply_to := none }
     let r1 := handle_media_group [] gid m1 ("vid_a".toList)
     let r2 := handle_media_group r1.1 gid m2 ("vid_b".toList)
     let r3 := handle_media_group r2.1 gid m3 ("vid_c".toList)
     r1.2 = [] ∧ r2.2.length = 1 ∧ alookup r2.1 gid = none ∧
       r3.2 = [] ∧ (alookup r3.1 gid).isSome = true) := by
  decide

/-- C1 amended: under batch correlation the completion fires exactly once —
the first message of the photo/video pair only stores state, the second fires
exactly one completion and removes the entry (in either arrival order); a
later single-media message with the same group id causes no second
completion, but it re-creates a fresh pending correlation entry for that key
instead of having no effect. -/
theorem media_group_completion_exactly_once
    (groups : List (Str × GroupEntry)) (gid : Str) (p v m3 : ChanMsg)
    (id1 id2 id3 : Str) (f : Str) (w : VideoInfo)
    (hg : alookup groups gid = none)
    (hf : p.photo.getLast? = some f) (hfe : f ≠ [])
    (hpv : p.video = none)
    (hvv : v.video = some w) (hwf : w.file_id ≠ [])
    (hvp : v.photo = [])
    (hm3 : (m3.video = none ∧ m3.photo ≠ []) ∨
           (m3.video.isSome = true ∧ m3.photo = [])) :
    ((handle_media_group groups gid p id1).2 = [] ∧
     (handle_media_group (handle_media_group groups gid p id1).1 gid v
        id2).2.length = 1 ∧
     (handle_media_group (handle_media_group groups gid p id1).1 gid v
        id2).1 = groups) ∧
    ((handle_media_group groups gid v id2).2 = [] ∧
     (handle_media_group (handle_media_group groups gid v id2).1 gid p
        id1).2.length = 1 ∧
     (handle_media_group (handle_media_group groups gid v id2).1 gid p
        id1).1 = groups) ∧
    ((handle_media_group groups gid m3 id3).2 = [] ∧
     (alookup (handle_media_group groups gid m3 id3).1 gid).isSome = true) := by
  have hppe : p.photo.isEmpty = false := by
    cases hph : p.photo with
    | nil => rw [hph] at hf; simp [List.getLast?] at hf
    | cons a s => simp
  have hfee : f.isEmpty = false := by
    cases f with
    | nil => exact absurd rfl hfe
    | cons a s => simp
  have hwe : w.file_id.isEmpty = false := by
    cases hwc : w.file_id with
    | nil => exact absurd hwc hwf
    | cons a s => simp
  have hvpe : v.photo.isEmpty = true := by simp [hvp]
  have herase : ∀ x : GroupEntry, aerase (ainsert groups gid x) gid = groups :=
    fun x => aerase_ainsert_of_none groups gid x hg
  refine ⟨⟨?_, ?_, ?_⟩, ⟨?_, ?_, ?_⟩, ?_⟩
  · simp [handle_media_group, emptyGroup, hg, hppe, hpv, hf, pyTruthyOptStr]
  · simp [handle_media_group, emptyGroup, hg, hppe, hpv, hf, hvv, hvpe,
      alookup_ainsert_self, hfee, hwe, pyTruthyOptStr]
  · simp [handle_media_group, emptyGroup, hg, hppe, hpv, hf, hvv, hvpe,
      alookup_ainsert_self, hfee, hwe, pyTruthyOptStr, herase]
  · simp [handle_media_group, emptyGroup, hg, hvv, hvpe, pyTruthyOptStr]
  · simp [handle_media_group, emptyGroup, hg, hvv, hvpe, hppe, hpv, hf,
      alookup_ainsert_self, hfee, hwe, pyTruthyOptStr]
  · simp [handle_media_group, emptyGroup, hg, hvv, hvpe, hppe, hpv, hf,
      alookup_ainsert_self, hfee, hwe, pyTruthyOptStr, herase]
  · rcases hm3 with ⟨h3v, h3p⟩ | ⟨h3v, h3p⟩
    · have h3pe : m3.photo.isEmpty = false := by
        cases hph : m3.photo with
        | nil => exact absurd hph h3p
        | cons a s => simp
      constructor
      · simp [handle_media_group, emptyGroup, hg, h3v, h3pe, pyTruthyOptStr]
      · simp [handle_media_group, emptyGroup, hg, h3v, h3pe, pyTruthyOptStr,
          alookup_ainsert_self]
    · obtain ⟨u, hueq⟩ := Option.isSome_iff_exists.mp h3v
      have h3pe : m3.photo.isEmpty = true := by simp [h3p]
      constructor
      · simp [handle_media_group, emptyGroup, hg, hueq, h3pe, pyTruthyOptStr]
      · simp [handle_media_group, emptyGroup, hg, hueq, h3pe, pyTruthyOptStr,
          alookup_ainsert_self]

/-- Witness for the amended C1 at a concrete photo/video/photo sequence. -/
theorem media_group_completion_exactly_once_witness :
    (handle_media_group
      (handle_media_group [] ("g1".toList)
        { message_id := 1, chat_id := 5, media_group_id := some ("g1".toList)
          photo := ["p1".toList], video := none, caption := none
          reply_to := none } ("vid_a".toList)).1 ("g1".toList)
      { message_id := 2, chat_id := 5, media_group_id := some ("g1".toList)
        photo := [], video := some { file_id := "v1".toList, thumbnail := none }
        caption := none, reply_to := none } ("vid_b".toList)).2.length = 1 := by
  exact (media_group_completion_exactly_once [] ("g1".toList)
    { message_id := 1, chat_id := 5, media_group_id := some ("g1".toList)
      photo := ["p1".toList], video := none, caption := none
      reply_to := none }
    { message_id := 2, chat_id := 5, media_group_id := some ("g1".toList)
      photo := [], video := some { file_id := "v1".toList, thumbnail := none }
      caption := none, reply_to := none }
    { message_id := 3, chat_id := 5, media_group_id := some ("g1".toList)
      photo := ["p3".toList], video := none, caption := none
      reply_to := none }
    ("vid_a".toList) ("vid_b".toList) ("vid_c".toList) ("p1".toList)
    { file_id := "v1".toList, thumbnail := none }
    rfl rfl (by decide) rfl rfl (by decide) rfl
    (Or.inl ⟨rfl, by decide⟩)).1.2.1

theorem forward_video_users (db : Db) (fwdOk : Bool) (vid : Str) :
    (forward_video_to_user db fwdOk vid).1.users = db.users := by
  unfold forward_video_to_user
  cases get_video db vid with
  | none => rfl
  | some v => cases fwdOk <;> simp [increment_downloads_users]

theorem forward_video_fail_fst (db : Db) (vid : Str) :
    (forward_video_to_user db false vid).1 = db :=
  (forward_fail_state db vid).1

theorem forward_video_fail_snd (db : Db) (vid : Str) :
    (forward_video_to_user db false vid).2 = false :=
  (forward_fail_state db vid).2

theorem record_download_users_eq (db1 db2 : Db) (uid : Int) (today : Nat)
    (h : db1.users = db2.users) :
    (record_download db1 uid today).users =
      (record_download db2 uid today).users := by
  unfold record_download
  rw [h]
  cases alookup db2.users uid <;> simp [h]

theorem checkedRow_total (u : UserRec) (today : Nat) :
    (checkedRow u today).total_downloads = u.total_downloads := by
  unfold checkedRow
  by_cases hd : u.last_download_date = some today <;> simp [hd]

theorem deliver_video_users_cases (db : Db) (uid : Int) (vid : Str)
    (limit : Int) (today : Nat) (fwdOk : Bool) :
    (deliver_video db uid vid false limit today fwdOk).1.users =
      (check_daily_limit db uid limit today).1.users ∨
    ((check_daily_limit db uid limit today).2.1 = true ∧
     (deliver_video db uid vid false limit today fwdOk).1.users =
       (record_download (check_daily_limit db uid limit today).1 uid
          today).users) := by
  by_cases hall : (check_daily_limit db uid limit today).2.1 = true
  · by_cases hfw : (forward_video_to_user
        (check_daily_limit db uid limit today).1 fwdOk vid).2 = true
    · right
      refine ⟨hall, ?_⟩
      have hfu : (forward_video_to_user
          (check_daily_limit db uid limit today).1 fwdOk vid).1.users =
          (check_daily_limit db uid limit today).1.users :=
        forward_video_users _ _ _
      have hl1 : alookup (forward_video_to_user
          (check_daily_limit db uid limit today).1 fwdOk vid).1.users uid =
          some (checkedRow (get_user db uid).2 today) := by
        rw [hfu]
        exact check_daily_limit_users_lookup db uid limit today
      have hrec := record_download_lookup _ uid today _ hl1
      have hc2 : (check_daily_limit (record_download (forward_video_to_user
          (check_daily_limit db uid limit today).1 fwdOk vid).1 uid today)
            uid limit today).1 =
          record_download (forward_video_to_user
            (check_daily_limit db uid limit today).1 fwdOk vid).1 uid today :=
        check_daily_limit_same_day _ uid limit today _ hrec
          (by simp [userRecordStmt])
      have hrr : (record_download (forward_video_to_user
          (check_daily_limit db uid limit today).1 fwdOk vid).1 uid
            today).users =
          (record_download (check_daily_limit db uid limit today).1 uid
            today).users :=
        record_download_users_eq _ _ uid today hfu
      simp [deliver_video, hall, hfw, hc2, hrr]
    · left
      simp [deliver_video, hall, hfw, forward_video_users]
  · left
    simp [deliver_video, hall]

theorem get_user_users_bound (db : Db) (uid0 : Int) (B : Int) (hB : 0 ≤ B)
    (ih : ∀ uid u, alookup db.users uid = some u →
      (u.downloads_today : Int) ≤ B) :
    ∀ uid u, alookup (get_user db uid0).1.users uid = some u →
      (u.downloads_today : Int) ≤ B := by
  intro uid u hu
  by_cases he : uid = uid0
  · subst he
    rw [get_user_lookup] at hu
    injection hu with hu2
    subst hu2
    rw [get_user_snd]
    cases hm : alookup db.users uid with
    | none => simpa [defaultUser] using hB
    | some u0 => simpa using ih uid u0 hm
  · rw [get_user_lookup_ne db uid0 uid he] at hu
    exact ih uid u hu

theorem check_users_bound (db : Db) (uid0 : Int) (limit : Int) (today : Nat)
    (B : Int) (hB : 0 ≤ B)
    (ih : ∀ uid u, alookup db.users uid = some u →
      (u.downloads_today : Int) ≤ B) :
    ∀ uid u, alookup (check_daily_limit db uid0 limit today).1.users uid
        = some u → (u.downloads_today : Int) ≤ B := by
  intro uid u hu
  by_cases he : uid = uid0
  · subst he
    rw [check_daily_limit_users_lookup] at hu
    injection hu with hu2
    subst hu2
    unfold checkedRow
    by_cases hd : (get_user db uid).2.last_download_date = some today
    · rw [if_neg (by simp [hd] :
        ¬ (get_user db uid).2.last_download_date ≠ some today)]
      rw [get_user_snd]
      cases hm : alookup db.users uid with
      | none => simpa [defaultUser] using hB
      | some u0 => simpa using ih uid u0 hm
    · rw [if_pos hd]
      simpa using hB
  · rw [check_daily_limit_users_lookup_ne db uid0 uid limit today he] at hu
    exact ih uid u hu

theorem reachable_np_counter_le (limit : Int) (db : Db)
    (h : ReachableDb (fun _ => false) limit db) :
    ∀ uid u, alookup db.users uid = some u →
      (u.downloads_today : Int) ≤ max limit 0 := by
  have hB : (0 : Int) ≤ max limit 0 := le_max_right _ _
  induction h with
  | init =>
    intro uid u hu
    simp [alookup] at hu
  | saveStep db0 i sc mid t th hdb ih =>
    intro uid u hu
    exact ih uid u (by simpa [save_video] using hu)
  | getUserStep db0 uid0 hdb ih => exact get_user_users_bound db0 uid0 _ hB ih
  | checkStep db0 uid0 today hdb ih =>
    exact check_users_bound db0 uid0 limit today _ hB ih
  | deliverStep db0 uid0 vid today fwdOk hdb ih =>
    intro uid u hu
    rcases deliver_video_users_cases db0 uid0 vid limit today fwdOk with
      hcase | ⟨hall, hcase⟩
    · rw [hcase] at hu
      exact check_users_bound db0 uid0 limit today _ hB ih uid u hu
    · rw [hcase] at hu
      by_cases he : uid = uid0
      · subst he
        have hrec := record_download_lookup
          (check_daily_limit db0 uid limit today).1 uid today
          (checkedRow (get_user db0 uid).2 today)
          (check_daily_limit_users_lookup db0 uid limit today)
        rw [hrec] at hu
        injection hu with hu2
        subst hu2
        have hallowed := check_daily_limit_allowed db0 uid limit today
        rw [hallowed] at hall
        have hpos : (check_daily_limit db0 uid limit today).2.2 > 0 :=
          of_decide_eq_true hall
        rw [check_daily_limit_remaining] at hpos
        have hln : (0 : Int) ≤ limit := by omega
        rw [max_eq_left hln]
        simp only [userRecordStmt]
        push_cast
        omega
      · rw [record_download_lookup_ne _ _ _ _ he] at hu
        exact check_users_bound db0 uid0 limit today _ hB ih uid u hu

theorem quota_ops_counter_mono (uid : Int) (limit : Int) (today : Nat)
    (ops : List QuotaOp) :
    ∀ (db : Db) (u : UserRec), alookup db.users uid = some u →
      u.last_download_date = some today →
      ∃ u2, alookup (apply_quota_ops uid limit today db ops).users uid
          = some u2 ∧
        u2.last_download_date = some today ∧
        u.downloads_today ≤ u2.downloads_today := by
  induction ops with
  | nil =>
    intro db u hu hd
    exact ⟨u, hu, hd, le_refl _⟩
  | cons op rest ih =>
    intro db u hu hd
    cases op with
    | checkQ =>
      have hstep : (check_daily_limit db uid limit today).1 = db :=
        check_daily_limit_same_day db uid limit today u hu hd
      have hfold : apply_quota_ops uid limit today db (QuotaOp.checkQ :: rest)
          = apply_quota_ops uid limit today db rest := by
        simp [apply_quota_ops, apply_quota_op, hstep]
      rw [hfold]
      exact ih db u hu hd
    | recordQ =>
      have hrec := record_download_lookup db uid today u hu
      obtain ⟨u2, h1, h2, h3⟩ := ih (record_download db uid today)
        (userRecordStmt today u) hrec (by simp [userRecordStmt])
      refine ⟨u2, ?_, h2, ?_⟩
      · simpa [apply_quota_ops, apply_quota_op] using h1
      · have : u.downloads_today ≤ (userRecordStmt today u).downloads_today :=
          by simp [userRecordStmt]
        omega

/-- C2: the quota check lazily creates the account, and when the stored
last-reset date differs from today it zeroes the daily counter and stamps
today before computing remaining — so the first check of a new calendar day
returns the full limit regardless of prior consumption; allowed is returned
iff remaining > 0; and across any same-day sequence of further checks and
records, a later check returns remaining no larger than an earlier one. -/
theorem daily_quota_check_semantics (db : Db) (uid : Int) (limit : Int)
    (today : Nat) :
    ((get_user db uid).2.last_download_date ≠ some today →
      (check_daily_limit db uid limit today).2.2 = limit) ∧
    ((check_daily_limit db uid limit today).2.1 = true ↔
      (check_daily_limit db uid limit today).2.2 > 0) ∧
    (∃ u1, alookup (check_daily_limit db uid limit today).1.users uid
        = some u1 ∧ u1.last_download_date = some today) ∧
    (∀ ops : List QuotaOp,
      (check_daily_limit
        (apply_quota_ops uid limit today
          (check_daily_limit db uid limit today).1 ops) uid limit
            today).2.2 ≤
      (check_daily_limit db uid limit today).2.2) := by
  refine ⟨?_, ?_, ?_, ?_⟩
  · intro hd
    rw [check_daily_limit_remaining]
    unfold checkedRow
    rw [if_pos hd]
    simp
  · rw [check_daily_limit_allowed]
    simp
  · exact ⟨checkedRow (get_user db uid).2 today,
      check_daily_limit_users_lookup db uid limit today,
      check_daily_limit_row_date db uid limit today⟩
  · intro ops
    obtain ⟨u2, h1, h2, h3⟩ := quota_ops_counter_mono uid limit today ops
      (check_daily_limit db uid limit today).1
      (checkedRow (get_user db uid).2 today)
      (check_daily_limit_users_lookup db uid limit today)
      (check_daily_limit_row_date db uid limit today)
    have hr2 : (check_daily_limit
        (apply_quota_ops uid limit today
          (check_daily_limit db uid limit today).1 ops) uid limit
            today).2.2 = limit - (checkedRow u2 today).downloads_today := by
      have hr := check_daily_limit_remaining
        (apply_quota_ops uid limit today
          (check_daily_limit db uid limit today).1 ops) uid limit today
      rw [get_user_eq_of_mem _ uid u2 h1] at hr
      exact hr
    have hcr : checkedRow u2 today = u2 := by
      unfold checkedRow
      rw [if_neg (by simp [h2] : ¬ u2.last_download_date ≠ some today)]
    rw [hr2, hcr, check_daily_limit_remaining]
    omega

/-- Witness for C2: a stale account gets the full limit back, and a check
after an interleaved record returns no more than the first check. -/
theorem daily_quota_check_semantics_witness :
    (check_daily_limit
      { videos := []
        users := [((7 : Int), { downloads_today := 2
                                last_download_date := some 3
                                total_downloads := 9 })] } 7 5 4).2.2 = 5 ∧
    (check_daily_limit
      (apply_quota_ops 7 5 4
        (check_daily_limit
          { videos := []
            users := [((7 : Int), { downloads_today := 2
                                    last_download_date := some 3
                                    total_downloads := 9 })] } 7 5 4).1
        [QuotaOp.recordQ]) 7 5 4).2.2 ≤
    (check_daily_limit
      { videos := []
        users := [((7 : Int), { downloads_today := 2
                                last_download_date := some 3
                                total_downloads := 9 })] } 7 5 4).2.2 := by
  have h := daily_quota_check_semantics
    { videos := []
      users := [((7 : Int), { downloads_today := 2
                              last_download_date := some 3
                              total_downloads := 9 })] } 7 5 4
  exact ⟨h.1 (by decide), h.2.2.2 [QuotaOp.recordQ]⟩

/-- C7 counterexample: a premium user's deliveries bypass the quota check but
still increment the daily counter, so a reachable state has the counter above
the limit and the next quota check reports remaining = -1 < 0. -/
theorem quota_remaining_negative_reachable :
    (let base := save_video { videos := [], users := [] }
        ("vid_aaaaaaaa".toList) 1 10 [] none
     let d1 := (get_user base 7).1
     let d2 := (deliver_video d1 7 ("vid_aaaaaaaa".toList) true 1 5 true).1
     let d3 := (deliver_video d2 7 ("vid_aaaaaaaa".toList) true 1 5 true).1
     ReachableDb (fun _ => true) 1 d3 ∧
       (check_daily_limit d3 7 1 5).2.2 < 0 ∧
       (check_daily_limit d3 7 1 5).2.1 = false) := by
  refine ⟨?_, by decide, by decide⟩
  exact ReachableDb.deliverStep _ 7 _ 5 true
    (ReachableDb.deliverStep _ 7 _ 5 true
      (ReachableDb.getUserStep _ 7
        (ReachableDb.saveStep _ _ 1 10 [] none ReachableDb.init)))

/-- C7 amended: allowed is always exactly remaining > 0 evaluated before any
consumption, and with no premium users and a non-negative configured limit
the remaining value of a quota check is never negative on any reachable
state; a premium user's deliveries can drive it negative (see the
counterexample). -/
theorem quota_remaining_nonneg_without_premium (db : Db) (limit : Int)
    (hreach : ReachableDb (fun _ => false) limit db) (hlim : 0 ≤ limit)
    (uid : Int) (today : Nat) :
    0 ≤ (check_daily_limit db uid limit today).2.2 ∧
    ((check_daily_limit db uid limit today).2.1 = true ↔
      (check_daily_limit db uid limit today).2.2 > 0) := by
  have hinv := reachable_np_counter_le limit db hreach
  constructor
  · rw [check_daily_limit_remaining]
    unfold checkedRow
    by_cases hd : (get_user db uid).2.last_download_date = some today
    · rw [if_neg (by simp [hd] :
        ¬ (get_user db uid).2.last_download_date ≠ some today)]
      have hbound : ((get_user db uid).2.downloads_today : Int) ≤
          max limit 0 := by
        rw [get_user_snd]
        cases hm : alookup db.users uid with
        | none => simpa [defaultUser] using le_max_right limit 0
        | some u0 => simpa using hinv uid u0 hm
      rw [max_eq_left hlim] at hbound
      omega
    · rw [if_pos hd]
      simpa using hlim
  · rw [check_daily_limit_allowed]
    simp

/-- Witness for the amended C7 on a reachable state with no premium users. -/
theorem quota_remaining_nonneg_without_premium_witness :
    0 ≤ (check_daily_limit
      (deliver_video { videos := [], users := [] } 7
        ("vid_bbbbbbbb".toList) false 3 1 true).1 7 3 1).2.2 := by
  exact (quota_remaining_nonneg_without_premium _ 3
    (ReachableDb.deliverStep _ 7 ("vid_bbbbbbbb".toList) 1 true
      ReachableDb.init) (by decide) 7 1).1

/-- C3 counterexample: a delivery attempt whose transport forward fails still
changes the user's daily counter when it triggers the quota check's
day-rollover reset (counter 3 becomes 0), refuting "all counters unchanged
versus their pre-call values". -/
theorem failed_forward_changes_daily_counter :
    (let db0 : Db :=
       { videos := [("vid_aaaaaaaa".toList,
           { source_channel := 1, message_id := 10, title := []
             thumbnail_id := none, downloads := 4 })]
         users := [((7 : Int), { downloads_today := 3
                                 last_download_date := some 5
                                 total_downloads := 9 })] }
     let r := deliver_video db0 7 ("vid_aaaaaaaa".toList) false 10 6 false
     r.2 = [Msg.videoNotFound] ∧
       (alookup r.1.users 7).map UserRec.downloads_today = some 0 ∧
       (alookup db0.users 7).map UserRec.downloads_today = some 3) := by
  decide

/-- C3 amended: a failed transport forward performs no increments — the
videos table (hence the content's download counter) and the user's lifetime
total are unchanged, and when the account's stored date is already today the
entire database is unchanged; the user sees the not-found message on a failed
forward (premium, or non-premium within quota); the only state change a
failed attempt can make is the quota check's own day-rollover reset. -/
theorem failed_forward_leaves_counters (db : Db) (uid : Int) (vid : Str)
    (isPremium : Bool) (limit : Int) (today : Nat) (u : UserRec)
    (hu : alookup db.users uid = some u) :
    (deliver_video db uid vid isPremium limit today false).1.videos =
      db.videos ∧
    (alookup (deliver_video db uid vid isPremium limit today
        false).1.users uid).map UserRec.total_downloads =
      some u.total_downloads ∧
    (u.last_download_date = some today →
      (deliver_video db uid vid isPremium limit today false).1 = db) ∧
    (isPremium = true →
      (deliver_video db uid vid isPremium limit today false).2 =
        [Msg.videoNotFound]) ∧
    (u.last_download_date = some today →
      (limit - u.downloads_today : Int) > 0 →
      (deliver_video db uid vid isPremium limit today false).2 =
        [Msg.videoNotFound]) := by
  cases isPremium with
  | true =>
    have hres : deliver_video db uid vid true limit today false =
        (db, [Msg.videoNotFound]) := by
      simp [deliver_video, forward_video_fail_fst, forward_video_fail_snd]
    rw [hres]
    exact ⟨rfl, by simp [hu], fun _ => rfl, fun _ => rfl, fun _ _ => rfl⟩
  | false =>
    have hgu : (get_user db uid).2 = u := by
      rw [get_user_eq_of_mem db uid u hu]
    by_cases hall : (check_daily_limit db uid limit today).2.1 = true
    · have hres : deliver_video db uid vid false limit today false =
          ((check_daily_limit db uid limit today).1,
            [Msg.videoNotFound]) := by
        simp [deliver_video, hall, forward_video_fail_fst,
          forward_video_fail_snd]
      rw [hres]
      refine ⟨check_daily_limit_videos db uid limit today, ?_, ?_, ?_,
        fun _ _ => rfl⟩
      · rw [check_daily_limit_users_lookup, hgu]
        simp [checkedRow_total]
      · intro hd
        exact check_daily_limit_same_day db uid limit today u hu hd
      · intro hpre
        cases hpre
    · have hres : deliver_video db uid vid false limit today false =
          ((check_daily_limit db uid limit today).1,
            [Msg.limitReached]) := by
        simp [deliver_video, hall]
      rw [hres]
      refine ⟨check_daily_limit_videos db uid limit today, ?_, ?_, ?_, ?_⟩
      · rw [check_daily_limit_users_lookup, hgu]
        simp [checkedRow_total]
      · intro hd
        exact check_daily_limit_same_day db uid limit today u hu hd
      · intro hpre
        cases hpre
      · intro hd hpos
        exfalso
        apply hall
        rw [check_daily_limit_allowed, check_daily_limit_remaining, hgu]
        have hcr : checkedRow u today = u := by
          unfold checkedRow
          rw [if_neg (by simp [hd] : ¬ u.last_download_date ≠ some today)]
        rw [hcr]
        simpa using hpos

/-- Witness for the amended C3: failed forward on a same-day account leaves
the database unchanged and reports not-found. -/
theorem failed_forward_leaves_counters_witness :
    (deliver_video
      { videos := [("vid_aaaaaaaa".toList,
          { source_channel := 1, message_id := 10, title := []
            thumbnail_id := none, downloads := 4 })]
        users := [((7 : Int), { downloads_today := 3
                                last_download_date := some 6
                                total_downloads := 9 })] }
      7 ("vid_aaaaaaaa".toList) false 10 6 false).1 =
      { videos := [("vid_aaaaaaaa".toList,
          { source_channel := 1, message_id := 10, title := []
            thumbnail_id := none, downloads := 4 })]
        users := [((7 : Int), { downloads_today := 3
                                last_download_date := some 6
                                total_downloads := 9 })] } ∧
    (deliver_video
      { videos := [("vid_aaaaaaaa".toList,
          { source_channel := 1, message_id := 10, title := []
            thumbnail_id := none, downloads := 4 })]
        users := [((7 : Int), { downloads_today := 3
                                last_download_date := some 6
                                total_downloads := 9 })] }
      7 ("vid_aaaaaaaa".toList) false 10 6 false).2 =
      [Msg.videoNotFound] := by
  have h := failed_forward_leaves_counters
    { videos := [("vid_aaaaaaaa".toList,
        { source_channel := 1, message_id := 10, title := []
          thumbnail_id := none, downloads := 4 })]
      users := [((7 : Int), { downloads_today := 3
                              last_download_date := some 6
                              total_downloads := 9 })] }
    7 ("vid_aaaaaaaa".toList) false 10 6
    { downloads_today := 3, last_download_date := some 6
      total_downloads := 9 } (by decide)
  exact ⟨h.2.2.1 rfl, h.2.2.2.2 rfl (by decide)⟩

/-- C6: a content request that fails the membership gate stores the id as the
user's single pending request (overwriting any prior one) with no database
change and no delivery; the later verification action performs exactly one
delivery of that id — its state and messages are exactly those of one
deliver_video call — and clears the pending request whatever the delivery
outcome (the transport oracle is universally quantified). -/
theorem deferred_delivery_round_trip (pending : Option Str) (db : Db)
    (uid : Int) (isPremium : Bool) (limit : Int) (today : Nat)
    (arg x : Str) (hx : extract_video_id arg = some x)
    (fwd1 fwd2 : Bool) :
    handle_start pending db true false (some arg) uid isPremium limit today
        fwd1 = (some x, db, [Msg.welcomePrompt]) ∧
    handle_verify_callback (some x) db true uid isPremium limit today fwd2 =
      (none,
       (deliver_video db uid x isPremium limit today fwd2).1,
       Msg.successMenu ::
         (deliver_video db uid x isPremium limit today fwd2).2) := by
  have hxe : x.isEmpty = false := by
    unfold extract_video_id at hx
    by_cases hc : (pyTruthyStr arg && ("vid_".toList).isPrefixOf arg) = true
    · rw [if_pos hc] at hx
      injection hx with h2
      subst h2
      have := (Bool.and_eq_true _ _).mp hc
      simpa [pyTruthyStr] using this.1
    · rw [if_neg hc] at hx
      simp at hx
  constructor
  · simp [handle_start, hx]
  · simp [handle_verify_callback, pyTruthyOptStr, hxe]

/-- Witness for C6 on a concrete deep link, with both transport outcomes. -/
theorem deferred_delivery_round_trip_witness :
    handle_start none { videos := [], users := [] } true false
        (some ("vid_abcd1234".toList)) 7 false 3 1 true =
      (some ("vid_abcd1234".toList), { videos := [], users := [] },
        [Msg.welcomePrompt]) ∧
    handle_verify_callback (some ("vid_abcd1234".toList))
        { videos := [], users := [] } true 7 false 3 1 false =
      (none,
       (deliver_video { videos := [], users := [] } 7
         ("vid_abcd1234".toList) false 3 1 false).1,
       Msg.successMenu ::
         (deliver_video { videos := [], users := [] } 7
           ("vid_abcd1234".toList) false 3 1 false).2) := by
  have h1 := deferred_delivery_round_trip none { videos := [], users := [] }
    7 false 3 1 ("vid_abcd1234".toList) ("vid_abcd1234".toList) (by decide)
    true false
  exact ⟨h1.1, h1.2⟩

/-- C8 counterexample: interleaving record_download's single UPDATE between
check_daily_limit's SELECT and its separate reset UPDATE produces a row
(daily counter 0) that neither serial order produces — a lost update, so the
daily-reset read-modify-write is not composed as one transactional
statement. -/
theorem quota_reset_interleaving_lost_update :
    (let u0 : UserRec := { downloads_today := 5, last_download_date := some 0
                           total_downloads := 10 }
     interleavedCheckRecord 1 u0 ≠ serialCheckRecord 1 u0 ∧
       interleavedCheckRecord 1 u0 ≠ serialRecordCheck 1 u0 ∧
       (interleavedCheckRecord 1 u0).downloads_today = 0 ∧
       (serialCheckRecord 1 u0).downloads_today = 1 ∧
       (serialRecordCheck 1 u0).downloads_today = 6) := by
  decide

/-- C8 amended: the counter increments (record_download's and
increment_downloads' single UPDATE statements) are atomic at the storage
layer and serialize, and the per-row effects of the embedded operations match
those statements; but check_daily_limit's daily reset is an application-level
SELECT followed by a separate UPDATE, and whenever the stored date is stale a
record_download interleaved between the two is lost: the final daily counter
is 0, unlike either serial outcome, while the lifetime total keeps the
recorded download. -/
theorem quota_reset_read_write_races (u0 : UserRec) (today : Nat)
    (hstale : u0.last_download_date ≠ some today) :
    (interleavedCheckRecord today u0).downloads_today = 0 ∧
    (interleavedCheckRecord today u0).total_downloads =
      u0.total_downloads + 1 ∧
    (serialCheckRecord today u0).downloads_today = 1 ∧
    (serialRecordCheck today u0).downloads_today =
      u0.downloads_today + 1 ∧
    (userRecordStmt today (userRecordStmt today u0)).downloads_today =
      u0.downloads_today + 2 ∧
    (∀ (db : Db) (uid : Int) (w : UserRec), alookup db.users uid = some w →
      alookup (record_download db uid today).users uid =
        some (userRecordStmt today w)) ∧
    (∀ (db : Db) (uid : Int) (limit : Int) (w : UserRec),
      alookup db.users uid = some w →
      alookup (check_daily_limit db uid limit today).1.users uid =
        some (checkThenWrite w today w)) := by
  refine ⟨?_, ?_, ?_, ?_, ?_, ?_, ?_⟩
  · simp [interleavedCheckRecord, checkThenWrite, userRecordStmt, hstale]
  · simp [interleavedCheckRecord, checkThenWrite, userRecordStmt, hstale]
  · simp [serialCheckRecord, checkThenWrite, userRecordStmt, hstale]
  · simp [serialRecordCheck, checkThenWrite, userRecordStmt]
  · simp [userRecordStmt]
  · intro db uid w hw
    exact record_download_lookup db uid today w hw
  · intro db uid limit w hw
    have h := check_daily_limit_users_lookup db uid limit today
    rw [get_user_eq_of_mem db uid w hw] at h
    exact h

/-- Witness for the amended C8 at a concrete stale row. -/
theorem quota_reset_read_write_races_witness :
    (interleavedCheckRecord 1
      { downloads_today := 5, last_download_date := some 0
        total_downloads := 10 }).downloads_today = 0 ∧
    (serialCheckRecord 1
      { downloads_today := 5, last_download_date := some 0
        total_downloads := 10 }).downloads_today = 1 := by
  have h := quota_reset_read_write_races
    { downloads_today := 5, last_download_date := some 0
      total_downloads := 10 } 1 (by decide)
  exact ⟨h.1, h.2.2.1⟩
